import Mathlib

/-!
Verification of the Life Cell Simulator (`src/life_simulator.py`), a Conway's
Game of Life implementation with a text interface and a GUI interface.

The embedding below mirrors the Python source:
* grids are `List (List Nat)` of 0/1 cells, built row-major exactly as the
  Python list comprehensions build them;
* `rows`/`cols` are `Int` (Python ints); `range(n)` for an int `n` is
  `List.range n.toNat` (Python's `range` of a non-positive int is empty);
* randomness (`random.choice([0, 1])`) is made explicit as a function
  `rng : Nat → Nat → Bool` giving the choice drawn for cell `(x, y)`;
* keyboard input is made explicit: `TextInterface.handle_input` takes the
  `Option Char` that `is_key_pressed` returned, and the GUI keydown handler
  takes an inductive of the pygame key constants it inspects.
-/

namespace LifeSim

/-- `SIMULATION_CONFIG["min_speed"]`. -/
def min_speed : Int := 1

/-- `SIMULATION_CONFIG["max_speed"]`. -/
def max_speed : Int := 60

/-- `SIMULATION_CONFIG["speed_increment"]`. -/
def speed_increment : Int := 5

/-- `SIMULATION_CONFIG["default_fps"]`. -/
def default_fps : Int := 10

/-- A grid is a list of rows, each row a list of 0/1 cells. -/
abbrev Grid := List (List Nat)

/-- `self.grid[x][y]` for indices that the caller has bounds-checked.
Out-of-range access defaults to 0; every use in the source is guarded by
`0 <= nx < self.rows and 0 <= ny < self.cols`, so on well-formed grids the
default is never consulted. -/
def cellAt (grid : Grid) (x y : Int) : Nat :=
  (grid.getD x.toNat []).getD y.toNat 0

/-- `LifeSimulator.create_grid(randomize)`: `rows × cols` grid, all dead when
`randomize` is false, each cell an independent 0/1 choice when true. -/
def create_grid (rows cols : Int) (randomize : Bool) (rng : Nat → Nat → Bool) :
    Grid :=
  if randomize then
    (List.range rows.toNat).map fun x =>
      (List.range cols.toNat).map fun y => if rng x y then 1 else 0
  else
    (List.range rows.toNat).map fun _ =>
      (List.range cols.toNat).map fun _ => 0

/-- The 8 Moore-neighborhood offsets, in the order the source lists them. -/
def directions : List (Int × Int) :=
  [(-1, -1), (-1, 0), (-1, 1), (0, -1), (0, 1), (1, -1), (1, 0), (1, 1)]

/-- `LifeSimulator.count_neighbors(x, y)`: fold over `directions`, adding the
neighbor's cell value whenever `(x+dx, y+dy)` is inside the grid bounds. -/
def count_neighbors (rows cols : Int) (grid : Grid) (x y : Int) : Nat :=
  directions.foldl
    (fun count d =>
      if 0 ≤ x + d.1 ∧ x + d.1 < rows ∧ 0 ≤ y + d.2 ∧ y + d.2 < cols then
        count + cellAt grid (x + d.1) (y + d.2)
      else count)
    0

/-- `LifeSimulator.next_generation()`: build a wholly new grid in which each
cell is recomputed from the old grid (survival on 2 or 3 neighbors, birth on
exactly 3). -/
def next_generation (rows cols : Int) (grid : Grid) : Grid :=
  (List.range rows.toNat).map fun (x : Nat) =>
    (List.range cols.toNat).map fun (y : Nat) =>
      let neighbors := count_neighbors rows cols grid (x : Int) (y : Int)
      if cellAt grid (x : Int) (y : Int) = 1 then
        if neighbors = 2 ∨ neighbors = 3 then 1 else 0
      else
        if neighbors = 3 then 1 else 0

/-- `class LifeSimulator`: dimensions plus the current grid. -/
structure LifeSimulator where
  rows : Int
  cols : Int
  grid : Grid
deriving Repr, DecidableEq

/-- `LifeSimulator.__init__(rows, cols)`: stores the dimensions unchecked and
creates a randomized grid. The source performs no dimension validation. -/
def LifeSimulator.init (rows cols : Int) (rng : Nat → Nat → Bool) :
    LifeSimulator :=
  { rows := rows, cols := cols, grid := create_grid rows cols true rng }

/-- Modelled from the spec (§4.1, §6): the spec's `new(rows, cols)`
constructor for the re-architected controller, which "fails with
`InvalidDimension` if `rows < 1` or `cols < 1`". No such check exists in
`src/life_simulator.py`; this definition exists only to compare the spec's
words against the source constructor `LifeSimulator.init`. -/
def specNew (rows cols : Int) (rng : Nat → Nat → Bool) :
    Except String LifeSimulator :=
  if rows < 1 ∨ cols < 1 then .error "InvalidDimension"
  else .ok (LifeSimulator.init rows cols rng)

/-- `class TextInterface`: the simulator plus the interactive-session state
(`update_rate`, `running`, `paused`). -/
structure TextInterface where
  simulator : LifeSimulator
  update_rate : Int
  running : Bool
  paused : Bool
deriving Repr, DecidableEq

/-- `TextInterface.__init__(simulator)`. -/
def TextInterface.init (simulator : LifeSimulator) : TextInterface :=
  { simulator := simulator, update_rate := default_fps, running := true,
    paused := false }

/-- `TextInterface.handle_input()`, with the polled key made explicit.
Mirrors the source's if/elif chain: space toggles pause, `r` randomizes,
`c` clears, ESC stops, `+`/`=` raises the rate by 1 clamped to `max_speed`,
`-` lowers it by 1 clamped to `min_speed`. -/
def TextInterface.handle_input (rng : Nat → Nat → Bool) (s : TextInterface)
    (key : Option Char) : TextInterface :=
  match key with
  | none => s
  | some k =>
    if k = ' ' then { s with paused := !s.paused }
    else if k.toLower = 'r' then
      { s with simulator :=
        { s.simulator with
          grid := create_grid s.simulator.rows s.simulator.cols true rng } }
    else if k.toLower = 'c' then
      { s with simulator :=
        { s.simulator with
          grid := create_grid s.simulator.rows s.simulator.cols false rng } }
    else if k = '\x1b' then { s with running := false }
    else if k = '+' ∨ k = '=' then
      { s with update_rate := min max_speed (s.update_rate + 1) }
    else if k = '-' then
      { s with update_rate := max min_speed (s.update_rate - 1) }
    else s

/-- The generation-advance step of one `_run_simulation_loop` iteration
(`if not self.paused: self.simulator.next_generation()`). -/
def TextInterface.tick (s : TextInterface) : TextInterface :=
  if s.paused then s
  else
    { s with simulator :=
      { s.simulator with
        grid := next_generation s.simulator.rows s.simulator.cols
          s.simulator.grid } }

/-- `class GUISettings`. -/
structure GUISettings where
  cell_size : Int
  fps : Int
  paused : Bool
deriving Repr, DecidableEq

/-- `GUISettings.__init__(cell_size)`. -/
def GUISettings.init (cell_size : Int) : GUISettings :=
  { cell_size := cell_size, fps := default_fps, paused := false }

/-- The pygame key constants that `GUIInterface._handle_keydown` inspects. -/
inductive PygameKey where
  | K_SPACE | K_r | K_c | K_UP | K_PLUS | K_KP_PLUS
  | K_DOWN | K_MINUS | K_KP_MINUS | K_ESCAPE | other
deriving Repr, DecidableEq

/-- `class GUIInterface` (the pure state: simulator, settings, running). -/
structure GUIInterface where
  simulator : LifeSimulator
  settings : GUISettings
  running : Bool
deriving Repr, DecidableEq

/-- `GUIInterface._handle_keydown(key)`: space toggles pause, `r`/`c`
reset/clear, up/plus raises fps by `speed_increment` clamped to `max_speed`,
down/minus lowers it by `speed_increment` clamped to `min_speed`, ESC stops. -/
def GUIInterface.handle_keydown (rng : Nat → Nat → Bool) (s : GUIInterface)
    (key : PygameKey) : GUIInterface :=
  if key = .K_SPACE then
    { s with settings := { s.settings with paused := !s.settings.paused } }
  else if key = .K_r then
    { s with simulator :=
      { s.simulator with
        grid := create_grid s.simulator.rows s.simulator.cols true rng } }
  else if key = .K_c then
    { s with simulator :=
      { s.simulator with
        grid := create_grid s.simulator.rows s.simulator.cols false rng } }
  else if key = .K_UP ∨ key = .K_PLUS ∨ key = .K_KP_PLUS then
    { s with settings :=
      { s.settings with
        fps := min max_speed (s.settings.fps + speed_increment) } }
  else if key = .K_DOWN ∨ key = .K_MINUS ∨ key = .K_KP_MINUS then
    { s with settings :=
      { s.settings with
        fps := max min_speed (s.settings.fps - speed_increment) } }
  else if key = .K_ESCAPE then { s with running := false }
  else s

/-- The generation-advance step of one `GUIInterface.run` loop iteration
(`if not self.settings.paused: self.simulator.next_generation()`). -/
def GUIInterface.tick (s : GUIInterface) : GUIInterface :=
  if s.settings.paused then s
  else
    { s with simulator :=
      { s.simulator with
        grid := next_generation s.simulator.rows s.simulator.cols
          s.simulator.grid } }

/-- A grid is well-formed for `rows × cols` when it has exactly `rows.toNat`
rows, each of exactly `cols.toNat` entries, every entry 0 or 1. -/
def WellFormed (rows cols : Int) (grid : Grid) : Prop :=
  grid.length = rows.toNat ∧
    ∀ row ∈ grid, row.length = cols.toNat ∧ ∀ v ∈ row, v = 0 ∨ v = 1

instance (rows cols : Int) (grid : Grid) :
    Decidable (WellFormed rows cols grid) := by
  unfold WellFormed; infer_instance

/-- Setting a single cell of the grid (`grid[x][y] = v` in the scenario of
§8 of the spec, "manually set cells ... alive"). -/
def set_cell (grid : Grid) (x y : Int) (v : Nat) : Grid :=
  grid.set x.toNat ((grid.getD x.toNat []).set y.toNat v)

/-- A concrete paused text-interface state, used to exercise theorems. -/
def pausedExample : TextInterface :=
  { simulator := LifeSimulator.init 2 2 (fun _ _ => false), update_rate := 10,
    running := true, paused := true }

/-- A concrete running text-interface state, used to exercise theorems. -/
def runningExample : TextInterface :=
  { pausedExample with paused := false }

/-- A concrete GUI state, used to exercise theorems. -/
def guiExample : GUIInterface :=
  { simulator := LifeSimulator.init 2 2 (fun _ _ => false),
    settings := GUISettings.init 20, running := true }

/-- The §8 scenario state after constructing a 5×5 interface and issuing the
clear command. -/
def blinkerCleared : TextInterface :=
  TextInterface.handle_input (fun _ _ => true)
    (TextInterface.init (LifeSimulator.init 5 5 (fun _ _ => true))) (some 'c')

/-- The §8 scenario state after manually setting cells (1,2), (2,2), (3,2)
alive (a vertical blinker). -/
def blinkerSet : TextInterface :=
  { blinkerCleared with simulator :=
    { blinkerCleared.simulator with
      grid := set_cell (set_cell
        (set_cell blinkerCleared.simulator.grid 1 2 1) 2 2 1) 3 2 1 } }

/-! ### Basic lemmas about cells and neighbor counting -/

theorem handle_input_space (rng : Nat → Nat → Bool) (s : TextInterface) :
    s.handle_input rng (some ' ') = { s with paused := !s.paused } := rfl

theorem handle_input_c (rng : Nat → Nat → Bool) (s : TextInterface) :
    s.handle_input rng (some 'c') =
      { s with simulator :=
        { s.simulator with
          grid := create_grid s.simulator.rows s.simulator.cols false rng } } :=
  rfl

theorem handle_input_plus (rng : Nat → Nat → Bool) (s : TextInterface) :
    s.handle_input rng (some '+') =
      { s with update_rate := min max_speed (s.update_rate + 1) } := rfl

theorem handle_input_minus (rng : Nat → Nat → Bool) (s : TextInterface) :
    s.handle_input rng (some '-') =
      { s with update_rate := max min_speed (s.update_rate - 1) } := rfl

theorem keydown_up (rng : Nat → Nat → Bool) (g : GUIInterface) :
    g.handle_keydown rng .K_UP =
      { g with settings :=
        { g.settings with
          fps := min max_speed (g.settings.fps + speed_increment) } } := rfl

theorem keydown_down (rng : Nat → Nat → Bool) (g : GUIInterface) :
    g.handle_keydown rng .K_DOWN =
      { g with settings :=
        { g.settings with
          fps := max min_speed (g.settings.fps - speed_increment) } } := rfl

/-- One addend of the `count_neighbors` fold: the neighbor's value when
`(nx, ny)` is in bounds, 0 otherwise. -/
def nbr (rows cols : Int) (grid : Grid) (nx ny : Int) : Nat :=
  if 0 ≤ nx ∧ nx < rows ∧ 0 ≤ ny ∧ ny < cols then cellAt grid nx ny else 0

theorem ite_accum (P : Prop) [Decidable P] (c v : Nat) :
    (if P then c + v else c) = c + (if P then v else 0) := by
  split <;> simp

/-- `count_neighbors` is the sum of the 8 neighbor contributions. -/
theorem count_neighbors_eq (rows cols : Int) (grid : Grid) (x y : Int) :
    count_neighbors rows cols grid x y =
      nbr rows cols grid (x - 1) (y - 1) + nbr rows cols grid (x - 1) y +
        nbr rows cols grid (x - 1) (y + 1) + nbr rows cols grid x (y - 1) +
        nbr rows cols grid x (y + 1) + nbr rows cols grid (x + 1) (y - 1) +
        nbr rows cols grid (x + 1) y + nbr rows cols grid (x + 1) (y + 1) := by
  simp [count_neighbors, directions, nbr, ite_accum, sub_eq_add_neg]

theorem cellAt_zero_or_one {grid : Grid}
    (h : ∀ row ∈ grid, ∀ v ∈ row, v = 0 ∨ v = 1) (x y : Int) :
    cellAt grid x y = 0 ∨ cellAt grid x y = 1 := by
  unfold cellAt
  rcases Nat.lt_or_ge x.toNat grid.length with hx | hx
  · rw [List.getD_eq_getElem _ _ hx]
    have hrow := h _ (grid.getElem_mem hx)
    rcases Nat.lt_or_ge y.toNat grid[x.toNat].length with hy | hy
    · rw [List.getD_eq_getElem _ _ hy]
      exact hrow _ (List.getElem_mem hy)
    · rw [List.getD_eq_default _ _ hy]; left; rfl
  · rw [List.getD_eq_default _ _ hx]; left; rfl

theorem cellAt_le_one {grid : Grid}
    (h : ∀ row ∈ grid, ∀ v ∈ row, v = 0 ∨ v = 1) (x y : Int) :
    cellAt grid x y ≤ 1 := by
  rcases cellAt_zero_or_one h x y with h0 | h1 <;> omega

theorem nbr_le_one {grid : Grid}
    (h : ∀ row ∈ grid, ∀ v ∈ row, v = 0 ∨ v = 1) (rows cols nx ny : Int) :
    nbr rows cols grid nx ny ≤ 1 := by
  unfold nbr; split
  · exact cellAt_le_one h nx ny
  · omega

theorem nbr_eq_zero {rows cols nx ny : Int} (grid : Grid)
    (h : nx < 0 ∨ rows ≤ nx ∨ ny < 0 ∨ cols ≤ ny) :
    nbr rows cols grid nx ny = 0 := by
  unfold nbr; rw [if_neg]; omega

theorem nbr_eq_live_indicator {grid : Grid}
    (h : ∀ row ∈ grid, ∀ v ∈ row, v = 0 ∨ v = 1) (rows cols nx ny : Int) :
    nbr rows cols grid nx ny =
      if (0 ≤ nx ∧ nx < rows ∧ 0 ≤ ny ∧ ny < cols) ∧ cellAt grid nx ny = 1
      then 1 else 0 := by
  unfold nbr
  rcases cellAt_zero_or_one h nx ny with h0 | h1
  · simp [h0]
  · simp [h1]

/-- Indexing a grid built as a row-major double `map` over `List.range`
recovers the generating function at in-range indices. -/
theorem cellAt_map_range {r c : Nat} (f : Nat → Nat → Nat) (x y : Nat)
    (hx : x < r) (hy : y < c) :
    cellAt
      ((List.range r).map fun i => (List.range c).map fun j => f i j)
      (x : Int) (y : Int) = f x y := by
  unfold cellAt
  rw [Int.toNat_ofNat, Int.toNat_ofNat]
  have hx1 : x <
      ((List.range r).map fun i => (List.range c).map fun j => f i j).length := by
    rw [List.length_map, List.length_range]; exact hx
  rw [List.getD_eq_getElem _ _ hx1]
  simp only [List.getElem_map, List.getElem_range]
  have hy1 : y < ((List.range c).map fun j => f x j).length := by
    rw [List.length_map, List.length_range]; exact hy
  rw [List.getD_eq_getElem _ _ hy1]
  simp only [List.getElem_map, List.getElem_range]

/-- Every cell of the zeroed grid is dead, at any index. -/
theorem cellAt_create_grid_false (rows cols : Int) (rng : Nat → Nat → Bool)
    (x y : Int) : cellAt (create_grid rows cols false rng) x y = 0 := by
  unfold create_grid cellAt
  simp only [Bool.false_eq_true, if_false]
  rcases Nat.lt_or_ge x.toNat rows.toNat with hx | hx
  · have hx1 : x.toNat <
        ((List.range rows.toNat).map fun _ =>
          (List.range cols.toNat).map fun _ => (0 : Nat)).length := by
      rw [List.length_map, List.length_range]; exact hx
    rw [List.getD_eq_getElem _ _ hx1]
    simp only [List.getElem_map, List.getElem_range]
    rcases Nat.lt_or_ge y.toNat cols.toNat with hy | hy
    · have hy1 : y.toNat <
          ((List.range cols.toNat).map fun _ => (0 : Nat)).length := by
        rw [List.length_map, List.length_range]; exact hy
      rw [List.getD_eq_getElem _ _ hy1]
      simp only [List.getElem_map, List.getElem_range]
    · rw [List.getD_eq_default]
      rw [List.length_map, List.length_range]; exact hy
  · have houter : ((List.range rows.toNat).map fun _ =>
        (List.range cols.toNat).map fun _ => (0 : Nat)).getD x.toNat [] = [] := by
      apply List.getD_eq_default
      rw [List.length_map, List.length_range]; exact hx
    rw [houter]
    rfl

theorem nbr_create_grid_false (rows cols rows' cols' : Int)
    (rng : Nat → Nat → Bool) (nx ny : Int) :
    nbr rows cols (create_grid rows' cols' false rng) nx ny = 0 := by
  unfold nbr; split
  · exact cellAt_create_grid_false rows' cols' rng nx ny
  · rfl

theorem count_neighbors_create_grid_false (rows cols rows' cols' : Int)
    (rng : Nat → Nat → Bool) (x y : Int) :
    count_neighbors rows cols (create_grid rows' cols' false rng) x y = 0 := by
  rw [count_neighbors_eq]
  simp [nbr_create_grid_false]

/-- Any row-major double `map` over ranges with 0/1 entries is well-formed. -/
theorem wellFormed_map_range (rows cols : Int) (f : Nat → Nat → Nat)
    (hf : ∀ i j, f i j = 0 ∨ f i j = 1) :
    WellFormed rows cols
      ((List.range rows.toNat).map fun i =>
        (List.range cols.toNat).map fun j => f i j) := by
  refine ⟨by simp, ?_⟩
  intro row hrow
  rcases List.mem_map.mp hrow with ⟨i, hi, rfl⟩
  refine ⟨by simp, ?_⟩
  intro v hv
  rcases List.mem_map.mp hv with ⟨j, hj, rfl⟩
  exact hf i j

theorem count_neighbors_le_eight {rows cols : Int} {grid : Grid}
    (h : ∀ row ∈ grid, ∀ v ∈ row, v = 0 ∨ v = 1) (x y : Int) :
    count_neighbors rows cols grid x y ≤ 8 := by
  rw [count_neighbors_eq]
  have b1 := nbr_le_one h rows cols (x - 1) (y - 1)
  have b2 := nbr_le_one h rows cols (x - 1) y
  have b3 := nbr_le_one h rows cols (x - 1) (y + 1)
  have b4 := nbr_le_one h rows cols x (y - 1)
  have b5 := nbr_le_one h rows cols x (y + 1)
  have b6 := nbr_le_one h rows cols (x + 1) (y - 1)
  have b7 := nbr_le_one h rows cols (x + 1) y
  have b8 := nbr_le_one h rows cols (x + 1) (y + 1)
  omega

theorem count_neighbors_corner_le_three {rows cols : Int} {grid : Grid}
    (h : ∀ row ∈ grid, ∀ v ∈ row, v = 0 ∨ v = 1) (x y : Int)
    (hx : x = 0 ∨ x = rows - 1) (hy : y = 0 ∨ y = cols - 1) :
    count_neighbors rows cols grid x y ≤ 3 := by
  rw [count_neighbors_eq]
  have b1 := nbr_le_one h rows cols (x - 1) (y - 1)
  have b2 := nbr_le_one h rows cols (x - 1) y
  have b3 := nbr_le_one h rows cols (x - 1) (y + 1)
  have b4 := nbr_le_one h rows cols x (y - 1)
  have b5 := nbr_le_one h rows cols x (y + 1)
  have b6 := nbr_le_one h rows cols (x + 1) (y - 1)
  have b7 := nbr_le_one h rows cols (x + 1) y
  have b8 := nbr_le_one h rows cols (x + 1) (y + 1)
  rcases hx with hx | hx
  · have z1 : nbr rows cols grid (x - 1) (y - 1) = 0 := nbr_eq_zero _ (by omega)
    have z2 : nbr rows cols grid (x - 1) y = 0 := nbr_eq_zero _ (by omega)
    have z3 : nbr rows cols grid (x - 1) (y + 1) = 0 := nbr_eq_zero _ (by omega)
    rcases hy with hy | hy
    · have z4 : nbr rows cols grid x (y - 1) = 0 := nbr_eq_zero _ (by omega)
      have z6 : nbr rows cols grid (x + 1) (y - 1) = 0 := nbr_eq_zero _ (by omega)
      omega
    · have z5 : nbr rows cols grid x (y + 1) = 0 := nbr_eq_zero _ (by omega)
      have z8 : nbr rows cols grid (x + 1) (y + 1) = 0 := nbr_eq_zero _ (by omega)
      omega
  · have z6 : nbr rows cols grid (x + 1) (y - 1) = 0 := nbr_eq_zero _ (by omega)
    have z7 : nbr rows cols grid (x + 1) y = 0 := nbr_eq_zero _ (by omega)
    have z8 : nbr rows cols grid (x + 1) (y + 1) = 0 := nbr_eq_zero _ (by omega)
    rcases hy with hy | hy
    · have z1 : nbr rows cols grid (x - 1) (y - 1) = 0 := nbr_eq_zero _ (by omega)
      have z4 : nbr rows cols grid x (y - 1) = 0 := nbr_eq_zero _ (by omega)
      omega
    · have z3 : nbr rows cols grid (x - 1) (y + 1) = 0 := nbr_eq_zero _ (by omega)
      have z5 : nbr rows cols grid x (y + 1) = 0 := nbr_eq_zero _ (by omega)
      omega

theorem count_neighbors_edge_le_five {rows cols : Int} {grid : Grid}
    (h : ∀ row ∈ grid, ∀ v ∈ row, v = 0 ∨ v = 1) (x y : Int)
    (hedge : x = 0 ∨ x = rows - 1 ∨ y = 0 ∨ y = cols - 1) :
    count_neighbors rows cols grid x y ≤ 5 := by
  rw [count_neighbors_eq]
  have b1 := nbr_le_one h rows cols (x - 1) (y - 1)
  have b2 := nbr_le_one h rows cols (x - 1) y
  have b3 := nbr_le_one h rows cols (x - 1) (y + 1)
  have b4 := nbr_le_one h rows cols x (y - 1)
  have b5 := nbr_le_one h rows cols x (y + 1)
  have b6 := nbr_le_one h rows cols (x + 1) (y - 1)
  have b7 := nbr_le_one h rows cols (x + 1) y
  have b8 := nbr_le_one h rows cols (x + 1) (y + 1)
  rcases hedge with hx | hx | hy | hy
  · have z1 : nbr rows cols grid (x - 1) (y - 1) = 0 := nbr_eq_zero _ (by omega)
    have z2 : nbr rows cols grid (x - 1) y = 0 := nbr_eq_zero _ (by omega)
    have z3 : nbr rows cols grid (x - 1) (y + 1) = 0 := nbr_eq_zero _ (by omega)
    omega
  · have z6 : nbr rows cols grid (x + 1) (y - 1) = 0 := nbr_eq_zero _ (by omega)
    have z7 : nbr rows cols grid (x + 1) y = 0 := nbr_eq_zero _ (by omega)
    have z8 : nbr rows cols grid (x + 1) (y + 1) = 0 := nbr_eq_zero _ (by omega)
    omega
  · have z1 : nbr rows cols grid (x - 1) (y - 1) = 0 := nbr_eq_zero _ (by omega)
    have z4 : nbr rows cols grid x (y - 1) = 0 := nbr_eq_zero _ (by omega)
    have z6 : nbr rows cols grid (x + 1) (y - 1) = 0 := nbr_eq_zero _ (by omega)
    omega
  · have z3 : nbr rows cols grid (x - 1) (y + 1) = 0 := nbr_eq_zero _ (by omega)
    have z5 : nbr rows cols grid x (y + 1) = 0 := nbr_eq_zero _ (by omega)
    have z8 : nbr rows cols grid (x + 1) (y + 1) = 0 := nbr_eq_zero _ (by omega)
    omega

/-- `count_neighbors` counts exactly the Moore-neighborhood offsets that land
in bounds on a live cell. -/
theorem count_neighbors_eq_countP {rows cols : Int} {grid : Grid}
    (h : ∀ row ∈ grid, ∀ v ∈ row, v = 0 ∨ v = 1) (x y : Int) :
    count_neighbors rows cols grid x y =
      directions.countP fun d =>
        decide ((0 ≤ x + d.1 ∧ x + d.1 < rows ∧ 0 ≤ y + d.2 ∧ y + d.2 < cols) ∧
          cellAt grid (x + d.1) (y + d.2) = 1) := by
  rw [count_neighbors_eq]
  rw [nbr_eq_live_indicator h, nbr_eq_live_indicator h, nbr_eq_live_indicator h,
    nbr_eq_live_indicator h, nbr_eq_live_indicator h, nbr_eq_live_indicator h,
    nbr_eq_live_indicator h, nbr_eq_live_indicator h]
  simp only [directions, List.countP_cons, List.countP_nil,
    decide_eq_true_eq, sub_eq_add_neg, add_zero]
  omega

/-! ### Claim theorems -/

/-- Claim C1: for every well-formed grid, `next_generation` produces a grid in
which every in-bounds cell is determined solely by the input generation: an
input-alive cell is output-alive iff its input live-neighbor count is exactly
2 or 3, and an input-dead cell is output-alive iff that count is exactly 3;
the rule reads only the input grid, never partially-updated output cells. -/
theorem next_generation_cell_rule (rows cols : Int) (grid : Grid) (x y : Nat)
    (hwf : WellFormed rows cols grid) (hx : x < rows.toNat)
    (hy : y < cols.toNat) :
    cellAt (next_generation rows cols grid) (x : Int) (y : Int) =
      if cellAt grid (x : Int) (y : Int) = 1 then
        if count_neighbors rows cols grid (x : Int) (y : Int) = 2 ∨
            count_neighbors rows cols grid (x : Int) (y : Int) = 3
        then 1 else 0
      else if count_neighbors rows cols grid (x : Int) (y : Int) = 3 then 1
        else 0 := by
  unfold next_generation
  exact cellAt_map_range _ x y hx hy

theorem next_generation_cell_rule_witness :
    WellFormed 2 2 [[1, 1], [1, 0]] ∧
    cellAt (next_generation 2 2 [[1, 1], [1, 0]]) ((0 : Nat) : Int)
      ((0 : Nat) : Int) = 1 :=
  ⟨by decide,
    (next_generation_cell_rule 2 2 [[1, 1], [1, 0]] 0 0 (by decide) (by decide)
      (by decide)).trans (by decide)⟩

/-- Claim C2: for every well-formed grid and in-bounds cell,
`count_neighbors` returns the number of live cells among the 8 Moore
offsets that fall inside the grid (out-of-bounds neighbors contribute 0, no
wraparound); the result is at most 8, at most 3 at a corner cell, and at most
5 at a non-corner edge cell. -/
theorem count_neighbors_spec (rows cols : Int) (grid : Grid) (x y : Int)
    (hwf : WellFormed rows cols grid) (hx : 0 ≤ x ∧ x < rows)
    (hy : 0 ≤ y ∧ y < cols) :
    count_neighbors rows cols grid x y =
      (directions.countP fun d =>
        decide ((0 ≤ x + d.1 ∧ x + d.1 < rows ∧ 0 ≤ y + d.2 ∧ y + d.2 < cols) ∧
          cellAt grid (x + d.1) (y + d.2) = 1)) ∧
    count_neighbors rows cols grid x y ≤ 8 ∧
    ((x = 0 ∨ x = rows - 1) ∧ (y = 0 ∨ y = cols - 1) →
      count_neighbors rows cols grid x y ≤ 3) ∧
    ((x = 0 ∨ x = rows - 1 ∨ y = 0 ∨ y = cols - 1) ∧
        ¬((x = 0 ∨ x = rows - 1) ∧ (y = 0 ∨ y = cols - 1)) →
      count_neighbors rows cols grid x y ≤ 5) := by
  have hvals : ∀ row ∈ grid, ∀ v ∈ row, v = 0 ∨ v = 1 :=
    fun row hr => (hwf.2 row hr).2
  exact ⟨count_neighbors_eq_countP hvals x y,
    count_neighbors_le_eight hvals x y,
    fun hc => count_neighbors_corner_le_three hvals x y hc.1 hc.2,
    fun he => count_neighbors_edge_le_five hvals x y he.1⟩

theorem count_neighbors_spec_witness :
    WellFormed 3 3 [[1, 1, 1], [1, 1, 1], [1, 1, 1]] ∧
    count_neighbors 3 3 [[1, 1, 1], [1, 1, 1], [1, 1, 1]] 0 0 ≤ 3 :=
  ⟨by decide,
    (count_neighbors_spec 3 3 [[1, 1, 1], [1, 1, 1], [1, 1, 1]] 0 0 (by decide)
      (by decide) (by decide)).2.2.1 (by decide)⟩

/-- Claim C3, counterexample: `LifeSimulator.__init__` performs no dimension
validation — constructing with `rows = 0, cols = 0` succeeds and yields a
simulator with an empty grid, whereas the spec's constructor (`specNew`,
modelled from the spec's words) would fail with `InvalidDimension`. -/
theorem init_accepts_zero_dims :
    LifeSimulator.init 0 0 (fun _ _ => false) =
      { rows := 0, cols := 0, grid := [] } ∧
    specNew 0 0 (fun _ _ => false) = Except.error "InvalidDimension" :=
  ⟨by decide, rfl⟩

/-- Claim C3, amended: construction never fails — for every `rows` and `cols`
(including zero or negative values) `LifeSimulator.__init__` returns a
simulator storing the given dimensions, whose grid has `max(rows, 0)` rows
each of `max(cols, 0)` cells; no `InvalidDimension` check exists in the
source. -/
theorem init_total_spec (rows cols : Int) (rng : Nat → Nat → Bool) :
    (LifeSimulator.init rows cols rng).rows = rows ∧
    (LifeSimulator.init rows cols rng).cols = cols ∧
    (LifeSimulator.init rows cols rng).grid.length = rows.toNat ∧
    ∀ row ∈ (LifeSimulator.init rows cols rng).grid,
      row.length = cols.toNat := by
  refine ⟨rfl, rfl, by simp [LifeSimulator.init, create_grid], ?_⟩
  intro row hrow
  simp only [LifeSimulator.init, create_grid, if_pos, List.mem_map] at hrow
  rcases hrow with ⟨i, hi, rfl⟩
  simp

/-- Claim C4, counterexample: the text interface's speed keys adjust the rate
by 1, not by the configured `speed_increment = 5` — from the initial rate 10,
`+` yields 11, while the claim's formula `min(max_rate, rate + 5)` yields
15. -/
theorem text_speed_step_is_one :
    (TextInterface.handle_input (fun _ _ => false)
      (TextInterface.init (LifeSimulator.init 5 5 (fun _ _ => false)))
      (some '+')).update_rate = 11 ∧
    min max_speed (default_fps + speed_increment) = 15 := by
  constructor <;> decide

/-- Claim C4, amended: the GUI speed keys adjust the rate by the configured
`speed_increment = 5` while the text interface's `+`/`-` keys adjust it by 1;
in both, speed-up sets the rate to `min(max_rate, rate + step)` and speed-down
to `max(min_rate, rate − step)`, so repeated presses pin the rate at
`max_rate` and `min_rate` respectively. -/
theorem speed_commands_spec (rng : Nat → Nat → Bool) (t : TextInterface)
    (g : GUIInterface)
    (ht : min_speed ≤ t.update_rate ∧ t.update_rate ≤ max_speed)
    (hg : min_speed ≤ g.settings.fps ∧ g.settings.fps ≤ max_speed) :
    (t.handle_input rng (some '+')).update_rate =
      min max_speed (t.update_rate + 1) ∧
    (t.handle_input rng (some '-')).update_rate =
      max min_speed (t.update_rate - 1) ∧
    (g.handle_keydown rng .K_UP).settings.fps =
      min max_speed (g.settings.fps + speed_increment) ∧
    (g.handle_keydown rng .K_DOWN).settings.fps =
      max min_speed (g.settings.fps - speed_increment) ∧
    (t.update_rate = max_speed →
      (t.handle_input rng (some '+')).update_rate = max_speed) ∧
    (t.update_rate = min_speed →
      (t.handle_input rng (some '-')).update_rate = min_speed) ∧
    (g.settings.fps = max_speed →
      (g.handle_keydown rng .K_UP).settings.fps = max_speed) ∧
    (g.settings.fps = min_speed →
      (g.handle_keydown rng .K_DOWN).settings.fps = min_speed) := by
  rw [handle_input_plus, handle_input_minus, keydown_up, keydown_down]
  refine ⟨rfl, rfl, rfl, rfl, ?_, ?_, ?_, ?_⟩
  · intro h; rw [h]; show min max_speed (max_speed + 1) = max_speed; decide
  · intro h; rw [h]; show max min_speed (min_speed - 1) = min_speed; decide
  · intro h; rw [h]
    show min max_speed (max_speed + speed_increment) = max_speed; decide
  · intro h; rw [h]
    show max min_speed (min_speed - speed_increment) = min_speed; decide

theorem speed_commands_spec_witness :
    (min_speed ≤ (10 : Int) ∧ (10 : Int) ≤ max_speed) ∧
    (TextInterface.handle_input (fun _ _ => false) runningExample
      (some '+')).update_rate = min max_speed (runningExample.update_rate + 1) :=
  ⟨by decide,
    (speed_commands_spec (fun _ _ => false) runningExample guiExample
      (by decide) (by decide)).1⟩

/-- Claim C5: in a paused state, the loop's generation-advance step (`tick`)
leaves the whole interface state — grid and rate included — unchanged; when
not paused it advances the grid by exactly one generation and changes nothing
else. -/
theorem tick_spec (s : TextInterface) :
    (s.paused = true → s.tick = s) ∧
    (s.paused = false →
      s.tick.simulator.grid =
        next_generation s.simulator.rows s.simulator.cols s.simulator.grid ∧
      s.tick.update_rate = s.update_rate ∧ s.tick.paused = s.paused ∧
      s.tick.running = s.running) := by
  constructor
  · intro h; simp [TextInterface.tick, h]
  · intro h; simp [TextInterface.tick, h]

theorem tick_spec_witness :
    TextInterface.tick pausedExample = pausedExample ∧
    (TextInterface.tick runningExample).simulator.grid =
      next_generation runningExample.simulator.rows
        runningExample.simulator.cols runningExample.simulator.grid :=
  ⟨(tick_spec pausedExample).1 rfl, ((tick_spec runningExample).2 rfl).1⟩

/-- Claim C6: the pause command (space) flips the paused flag and changes
nothing else; applying it twice restores the original state exactly,
leaving the grid unchanged. -/
theorem toggle_pause_spec (rng : Nat → Nat → Bool) (s : TextInterface) :
    (s.handle_input rng (some ' ')).paused = !s.paused ∧
    (s.handle_input rng (some ' ')).simulator = s.simulator ∧
    (s.handle_input rng (some ' ')).update_rate = s.update_rate ∧
    (s.handle_input rng (some ' ')).running = s.running ∧
    (s.handle_input rng (some ' ')).handle_input rng (some ' ') = s := by
  rw [handle_input_space, handle_input_space]
  refine ⟨rfl, rfl, rfl, rfl, ?_⟩
  simp

/-- Claim C7: the clear command replaces the grid with an all-dead grid of
the simulator's own rows×cols dimensions and leaves the dimensions, the
paused flag, and the rate unchanged. -/
theorem clear_spec (rng : Nat → Nat → Bool) (s : TextInterface) :
    (s.handle_input rng (some 'c')).simulator.grid =
      create_grid s.simulator.rows s.simulator.cols false rng ∧
    (s.handle_input rng (some 'c')).simulator.grid.length =
      s.simulator.rows.toNat ∧
    (∀ row ∈ (s.handle_input rng (some 'c')).simulator.grid,
      row.length = s.simulator.cols.toNat ∧ ∀ v ∈ row, v = 0) ∧
    (s.handle_input rng (some 'c')).simulator.rows = s.simulator.rows ∧
    (s.handle_input rng (some 'c')).simulator.cols = s.simulator.cols ∧
    (s.handle_input rng (some 'c')).paused = s.paused ∧
    (s.handle_input rng (some 'c')).update_rate = s.update_rate ∧
    (s.handle_input rng (some 'c')).running = s.running := by
  rw [handle_input_c]
  refine ⟨rfl, by simp [create_grid], ?_, rfl, rfl, rfl, rfl, rfl⟩
  intro row hrow
  simp only [create_grid, Bool.false_eq_true, if_false, List.mem_map] at hrow
  rcases hrow with ⟨i, hi, rfl⟩
  refine ⟨by simp, ?_⟩
  intro v hv
  simp only [List.mem_map] at hv
  rcases hv with ⟨j, hj, rfl⟩
  rfl

/-- Claim C8: the all-dead grid is a fixed point of the transition — for all
`r ≥ 1`, `c ≥ 1`, one (and hence two) applications of `next_generation` to
the zeroed `r × c` grid return the zeroed grid. -/
theorem zeroed_fixed_point (r c : Int) (hr : 1 ≤ r) (hc : 1 ≤ c)
    (rng : Nat → Nat → Bool) :
    next_generation r c (create_grid r c false rng) =
      create_grid r c false rng ∧
    next_generation r c (next_generation r c (create_grid r c false rng)) =
      create_grid r c false rng := by
  have key : next_generation r c (create_grid r c false rng) =
      create_grid r c false rng := by
    show ((List.range r.toNat).map fun (x : Nat) =>
        (List.range c.toNat).map fun (y : Nat) =>
          let neighbors :=
            count_neighbors r c (create_grid r c false rng) (x : Int) (y : Int)
          if cellAt (create_grid r c false rng) (x : Int) (y : Int) = 1 then
            if neighbors = 2 ∨ neighbors = 3 then 1 else 0
          else if neighbors = 3 then 1 else 0) =
      (List.range r.toNat).map fun _ =>
        (List.range c.toNat).map fun _ => 0
    apply List.map_congr_left
    intro x _
    apply List.map_congr_left
    intro y _
    simp [cellAt_create_grid_false, count_neighbors_create_grid_false]
  exact ⟨key, by rw [key, key]⟩

theorem zeroed_fixed_point_witness :
    (1 : Int) ≤ 3 ∧
    next_generation 3 3 (create_grid 3 3 false (fun _ _ => false)) =
      create_grid 3 3 false (fun _ _ => false) :=
  ⟨by decide,
    (zeroed_fixed_point 3 3 (by decide) (by decide) (fun _ _ => false)).1⟩

/-- Claim C9: in the 5×5 scenario — clear to all-dead, then set exactly cells
(1,2), (2,2), (3,2) alive — one tick yields exactly cells (2,1), (2,2), (2,3)
alive with every other cell dead, and a second tick restores the vertical
line (period-2 oscillation). -/
theorem blinker_scenario :
    blinkerCleared.simulator.grid =
      [[0, 0, 0, 0, 0], [0, 0, 0, 0, 0], [0, 0, 0, 0, 0], [0, 0, 0, 0, 0],
        [0, 0, 0, 0, 0]] ∧
    blinkerSet.simulator.grid =
      [[0, 0, 0, 0, 0], [0, 0, 1, 0, 0], [0, 0, 1, 0, 0], [0, 0, 1, 0, 0],
        [0, 0, 0, 0, 0]] ∧
    (TextInterface.tick blinkerSet).simulator.grid =
      [[0, 0, 0, 0, 0], [0, 0, 0, 0, 0], [0, 1, 1, 1, 0], [0, 0, 0, 0, 0],
        [0, 0, 0, 0, 0]] ∧
    (TextInterface.tick (TextInterface.tick blinkerSet)).simulator.grid =
      blinkerSet.simulator.grid := by
  refine ⟨by decide, by decide, by decide, by decide⟩

/-- Claim C10: well-formedness is preserved by every grid-producing
operation — `create_grid` (zeroed or randomized) and `next_generation` all
return a grid of exactly `rows` lists of exactly `cols` entries, each entry
0 or 1. -/
theorem wellformed_invariant (rows cols : Int) (rng : Nat → Nat → Bool)
    (grid : Grid) (h : WellFormed rows cols grid) :
    WellFormed rows cols (create_grid rows cols false rng) ∧
    WellFormed rows cols (create_grid rows cols true rng) ∧
    WellFormed rows cols (next_generation rows cols grid) := by
  refine ⟨?_, ?_, ?_⟩
  · exact wellFormed_map_range rows cols (fun _ _ => 0)
      (fun _ _ => Or.inl rfl)
  · exact wellFormed_map_range rows cols
      (fun i j => if rng i j then 1 else 0)
      (fun i j => by dsimp only; split <;> simp)
  · refine wellFormed_map_range rows cols
      (fun i j =>
        let neighbors := count_neighbors rows cols grid (i : Int) (j : Int)
        if cellAt grid (i : Int) (j : Int) = 1 then
          if neighbors = 2 ∨ neighbors = 3 then 1 else 0
        else if neighbors = 3 then 1 else 0)
      (fun i j => ?_)
    dsimp only
    split
    · split
      · right; rfl
      · left; rfl
    · split
      · right; rfl
      · left; rfl

theorem wellformed_invariant_witness :
    WellFormed 2 2 [[0, 1], [1, 0]] ∧
    WellFormed 2 2 (next_generation 2 2 [[0, 1], [1, 0]]) :=
  ⟨by decide,
    (wellformed_invariant 2 2 (fun _ _ => false) [[0, 1], [1, 0]]
      (by decide)).2.2⟩

end LifeSim
